import Mathlib

/-!
Shallow embedding of the tab/view lifecycle manager of `src/index.js`
(class `BrowserLikeWindow`).  Each definition mirrors one method or ipc
handler of the source; machine-visible effects that the source performs
through the host platform (ipc replies, `emit`, `webContents.loadURL`,
`webContents.destroy`) are recorded in an explicit event log so that
ordering claims can be stated.
-/

namespace XBrowse

/-- Tab identifiers: the underlying `webContents.id` (a positive integer
allocated by the host platform, never reused). -/
abbrev TabID := Nat

/-- `n` occurs contiguously inside `h` (on character lists). -/
def isSegmentOf (n h : List Char) : Bool :=
  match h with
  | [] => n.isEmpty
  | _ :: t => n.isPrefixOf h || isSegmentOf n t

/-- JS `haystack.includes(needle)` on strings (substring test). -/
def includes (haystack needle : String) : Bool :=
  isSegmentOf needle.data haystack.data

/-- JS `a || d` for an optional string `a` (both `undefined` and `""` are
falsy and fall through to the default). -/
def jsOr (a : Option String) (d : String) : String :=
  match a with
  | some s => if s = "" then d else s
  | none => d

/-- JS truthiness of an optional numeric id (`undefined` and `0` are falsy). -/
def jsTruthyId : Option TabID → Bool
  | none => false
  | some a => a != 0

/-- JS `Array.prototype.indexOf`: first index of `x` in `l`, `-1` if absent. -/
def jsIndexOf (l : List TabID) (x : TabID) : Int :=
  if x ∈ l then (l.indexOf x : Int) else -1

/-- JS `l.splice(k, 0, x)` for `0 ≤ k`: insert `x` at position `k`
(past-the-end positions append, exactly as in JS). -/
def spliceInsert (l : List TabID) (k : Nat) (x : TabID) : List TabID :=
  l.take k ++ x :: l.drop k

/-- Pointwise update of a keyed store (a JS object used as a map; a key set
to `undefined` is modelled as `none`, which is how the source itself reads
absent keys back: `this.tabConfigs[viewId]` yields `undefined` either way). -/
def upd {α : Type} (f : TabID → Option α) (k : TabID) (v : Option α) :
    TabID → Option α :=
  fun j => if j = k then v else f j

/-- One entry of `defTabConfigs` (typedef `Tab` in the source).  Every field
is optional: a JS object is built up by merges and starts empty, and
`canGoBack`/`canGoForward` are written as `webContents && webContents.canGoBack()`,
which is `undefined` (here `none`) when no live view exists. -/
structure Tab where
  url : Option String := none
  href : Option String := none
  title : Option String := none
  favicon : Option String := none
  isLoading : Option Bool := none
  canGoBack : Option Bool := none
  canGoForward : Option Bool := none
  deriving DecidableEq, Repr

/-- The live state of one `BrowserView`'s `webContents` that the manager
queries: `getURL()`, `canGoBack()`, `canGoForward()`, and the
`__IS_INITIALIZED__` mark that `loadURL` sets on first use. -/
structure View where
  url : String := ""
  canGoBack : Bool := false
  canGoForward : Bool := false
  initialized : Bool := false
  deriving DecidableEq, Repr

/-- Observable effects, in emission order.  `activeUpdate` is the
`ipc.reply('active-update', id)` fired by the `currentViewId` setter;
`tabsUpdate` is the `ipc.reply('tabs-update', {confs, tabs})` fired by the
`tabConfigs` setter (we record the `tabs` payload); `load` marks a
`webContents.loadURL` call; `destroyed` marks a `webContents.destroy()`;
`urlUpdated` is the `this.emit('url-updated', {view, href})` notification. -/
inductive Evt where
  | activeUpdate (id : TabID)
  | tabsUpdate (tabs : List TabID)
  | load (id : TabID) (url : String)
  | destroyed (id : TabID)
  | urlUpdated (href : String)
  deriving DecidableEq, Repr

/-- The mutable state of one `BrowserLikeWindow`: `defCurrentViewId`
(`null` initially), `defTabConfigs`, `views`, `tabs`, the host platform's
id allocator for fresh `webContents`, the fixed options `blankPage` /
`blankTitle` (`""` models an unset option), the common prefix
`fileUrl(__dirname)` of every built-in page's physical location, and the
event log. -/
structure Shell where
  currentViewId : Option TabID := none
  tabConfigs : TabID → Option Tab := fun _ => none
  views : TabID → Option View := fun _ => none
  tabs : List TabID := []
  nextId : TabID := 1
  blankPage : String := ""
  blankTitle : String := ""
  fileBase : String := ""
  log : List Evt := []

/-- `get currentView()`: `this.currentViewId ? this.views[this.currentViewId] : null`,
paired with the id so callers can name the view they got. -/
def currentView (st : Shell) : Option (TabID × View) :=
  match st.currentViewId with
  | none => none
  | some i => if i = 0 then none else (st.views i).map (fun v => (i, v))

/-- The `tabConfigs` setter: assigns `defTabConfigs` and replies
`tabs-update` with the current tab order. -/
def assignTabConfigs (st : Shell) (v : TabID → Option Tab) : Shell :=
  { st with tabConfigs := v, log := st.log ++ [Evt.tabsUpdate st.tabs] }

/-- `setCurrentView(viewId)`: no-op on a falsy id, otherwise swaps the
attached view and runs the `currentViewId` setter (which replies
`active-update`). -/
def setCurrentView (st : Shell) (viewId : Option TabID) : Shell :=
  match viewId with
  | none => st
  | some i =>
    if i = 0 then st
    else { st with currentViewId := some i, log := st.log ++ [Evt.activeUpdate i] }

/-- The object spread `{...tab, canGoBack: wc && wc.canGoBack(),
canGoForward: wc && wc.canGoForward(), ...kv}` of `setTabConfig`:
a key present in `kv` wins, else the explicitly recomputed `canGo*`,
else the prior entry's key. -/
def mergeTab (tab : Tab) (live : Option View) (kv : Tab) : Tab where
  url := match kv.url with | some v => some v | none => tab.url
  href := match kv.href with | some v => some v | none => tab.href
  title := match kv.title with | some v => some v | none => tab.title
  favicon := match kv.favicon with | some v => some v | none => tab.favicon
  isLoading := match kv.isLoading with | some v => some v | none => tab.isLoading
  canGoBack := match kv.canGoBack with
    | some v => some v | none => live.map View.canGoBack
  canGoForward := match kv.canGoForward with
    | some v => some v | none => live.map View.canGoForward

/-- `setTabConfig(viewId, kv)`: merge `kv` into the (possibly absent) prior
entry and assign the store through its setter. -/
def setTabConfig (st : Shell) (viewId : TabID) (kv : Tab) : Shell :=
  assignTabConfigs st
    (upd st.tabConfigs viewId
      (some (mergeTab ((st.tabConfigs viewId).getD {}) (st.views viewId) kv)))

/-- `destroyView(viewId)`: destroy the webContents and clear the slot;
idempotent (unknown or already-destroyed ids are a no-op). -/
def destroyView (st : Shell) (viewId : TabID) : Shell :=
  match st.views viewId with
  | none => st
  | some _ =>
    { st with views := upd st.views viewId none,
              log := st.log ++ [Evt.destroyed viewId] }

/-- `fileUrl(`dirname/main/renderer/name`)`: the physical location of a
built-in page, with `fileBase` standing for `fileUrl(__dirname)` (the
fixed suffix contains no characters the file-url encoding rewrites). -/
def pagePath (base name : String) : String :=
  base ++ "/main/renderer/" ++ name

/-- First-occurrence `String.replace` as JS performs it (on character
lists; Lean's own `String.replace` replaces every occurrence). -/
def replaceFirstAux (l pat rep : List Char) : List Char :=
  match l with
  | [] => []
  | c :: rest =>
    if pat.isPrefixOf (c :: rest) then rep ++ (c :: rest).drop pat.length
    else c :: replaceFirstAux rest pat rep

/-- JS `s.replace(pat, rep)` with string arguments (first occurrence only). -/
def replaceFirst (s pat rep : String) : String :=
  ⟨replaceFirstAux s.data pat.data rep.data⟩

/-- `loadURL(url)`: bail out on a falsy url or no current view; an already
initialized webContents only gets the `px://` physical rewrite and a load;
a fresh one is subscribed to the navigation handlers (modelled as the
standalone handler functions below), loaded, and marked initialized. -/
def loadURL (st : Shell) (url : String) : Shell :=
  if url = "" then st
  else
    match currentView st with
    | none => st
    | some (id, view) =>
      if view.initialized then
        let url' := if includes url "px://" then
            pagePath st.fileBase (replaceFirst url "px://" "" ++ ".html")
          else url
        { st with log := st.log ++ [Evt.load id url'] }
      else
        { st with views := upd st.views id (some { view with initialized := true }),
                  log := st.log ++ [Evt.load id url] }

/-- The first phase of `newTab(url, appendTo, references)`: allocate a fresh
view id (`view.id = view.webContents.id`), splice it into `tabs` right
after `appendTo` when that is truthy (JS `indexOf` yields `-1` for an
absent anchor, so the splice position is then `0`), else push at the end,
and register the fresh view. -/
def newTabInserted (st : Shell) (appendTo : Option TabID) : Shell :=
  { st with
    nextId := st.nextId + 1,
    tabs :=
      if jsTruthyId appendTo then
        spliceInsert st.tabs (jsIndexOf st.tabs (appendTo.getD 0) + 1).toNat st.nextId
      else st.tabs ++ [st.nextId],
    views := upd st.views st.nextId (some {}) }

/-- `newTab(url, appendTo, references)`: insert and register the fresh view,
activate it, load `url || blankPage`, and seed the config entry with
`blankTitle || 'about:blank'`. -/
def newTab (st : Shell) (url : Option String) (appendTo : Option TabID) : Shell :=
  setTabConfig
    (loadURL (setCurrentView (newTabInserted st appendTo) (some st.nextId))
      (jsOr url st.blankPage))
    st.nextId
    { title := some (if st.blankTitle = "" then "about:blank" else st.blankTitle) }

/-- `switchTab(viewId)` (the focus call has no modelled state effect). -/
def switchTab (st : Shell) (viewId : TabID) : Shell :=
  setCurrentView st (some viewId)

/-- The replacement position the `'close-tab'` handler computes when the
closed tab is active:
`removeIndex === this.tabs.length - 1 ? 0 : removeIndex + 1` with
`removeIndex = this.tabs.indexOf(id)`. -/
def closeNextIndex (tabs : List TabID) (id : TabID) : Int :=
  if jsIndexOf tabs id = (tabs.length : Int) - 1 then 0 else jsIndexOf tabs id + 1

/-- The first phase of the `'close-tab'` handler: when the closed tab is
active, `setCurrentView(this.tabs[nextIndex])` (an out-of-range index
yields `undefined`, on which `setCurrentView` is a no-op). -/
def closeTabSwitched (st : Shell) (id : TabID) : Shell :=
  if st.currentViewId = some id then
    setCurrentView st (st.tabs.get? (closeNextIndex st.tabs id).toNat)
  else st

/-- The `'close-tab'` handler up to the auto-reopen check: switch away if
needed, filter the id out of `tabs`, erase its config entry (the spread
with `[id]: undefined`, assigned through the `tabConfigs` setter), and
destroy its view. -/
def closeTabBase (st : Shell) (id : TabID) : Shell :=
  destroyView
    (assignTabConfigs
      { closeTabSwitched st id with
        tabs := (closeTabSwitched st id).tabs.filter (fun v => v != id) }
      (upd (closeTabSwitched st id).tabConfigs id none))
    id

/-- The whole `'close-tab'` ipc handler: after removal, `this.newTab()`
when no tab remains. -/
def closeTab (st : Shell) (id : TabID) : Shell :=
  if (closeTabBase st id).tabs.length = 0 then newTab (closeTabBase st id) none none
  else closeTabBase st id

/-- The navigation methods of a webContents that the control surface's
`act` channel can name (each is `typeof … === 'function'`; any other name
falls into the `log.error('Invalid webContents action')` branch). -/
def wcNavigationMethods : List String := ["goBack", "goForward", "reload", "stop"]

/-- `webContentsAct(actionName)`: the action forwarded to the current
webContents, or `none` when nothing is invoked (no current view, unknown
action, or the guard `actionName === 'reload' && webContents.getURL() === ''`). -/
def webContentsAct (st : Shell) (actionName : String) : Option (TabID × String) :=
  match currentView st with
  | none => none
  | some (id, view) =>
    if actionName ∈ wcNavigationMethods then
      if actionName = "reload" ∧ view.url = "" then none
      else some (id, actionName)
    else none

/-- The file names of the built-in pages, in the order the
`did-start-navigation` handler tests them. -/
def builtinFile : Nat → String
  | 0 => "settings.html"
  | 1 => "about.html"
  | 2 => "help.html"
  | 3 => "web_fail_code.html"
  | _ => "credits.html"

/-- The virtual-scheme address each built-in page presents under. -/
def builtinVirtual : Nat → String
  | 0 => "px://settings"
  | 1 => "px://about"
  | 2 => "px://help"
  | 3 => "px://network-error"
  | _ => "px://credits"

/-- The sequential href rewrite of the `did-start-navigation` handler:
an exact match of the blank page becomes `""`, then each built-in page's
physical location is tested with `href.includes(...)` in order and
replaces `href` by its virtual address. -/
def rewriteHref (base blankPage href : String) : String :=
  let h0 := if href = blankPage then "" else href
  let h1 := if includes h0 (pagePath base "settings.html") then "px://settings" else h0
  let h2 := if includes h1 (pagePath base "about.html") then "px://about" else h1
  let h3 := if includes h2 (pagePath base "help.html") then "px://help" else h2
  let h4 := if includes h3 (pagePath base "web_fail_code.html") then "px://network-error" else h3
  if includes h4 (pagePath base "credits.html") then "px://credits" else h4

/-- The `did-start-navigation` handler bound to the view `id`: main-frame
navigations rewrite the href, merge `{url, href}` and emit `url-updated`;
sub-frame navigations do nothing. -/
def didStartNavigation (st : Shell) (id : TabID) (href : String)
    (_isInPlace isMainFrame : Bool) : Shell :=
  if isMainFrame then
    let href' := rewriteHref st.fileBase st.blankPage href
    let st' := setTabConfig st id { url := some href', href := some href' }
    { st' with log := st'.log ++ [Evt.urlUpdated href'] }
  else st

/-- The `will-redirect` handler bound to the view `id`: merges the raw
redirect target into `{url, href}` and emits `url-updated` (no frame test
and no virtual-scheme rewrite appear in the source). -/
def willRedirect (st : Shell) (id : TabID) (href : String) : Shell :=
  let st' := setTabConfig st id { url := some href, href := some href }
  { st' with log := st'.log ++ [Evt.urlUpdated href] }

/-- The tab-lifecycle commands the control surface can issue
(`new-tab`, `close-tab`, `switch-tab`). -/
inductive Cmd where
  | openTab (url : Option String) (anchor : Option TabID)
  | closeTab (id : TabID)
  | switchTab (id : TabID)

/-- One command dispatched by the ipc channel table. -/
def step (st : Shell) : Cmd → Shell
  | .openTab url anchor => newTab st url anchor
  | .closeTab id => closeTab st id
  | .switchTab id => switchTab st id

/-- A whole command sequence. -/
def run (st : Shell) (cmds : List Cmd) : Shell := cmds.foldl step st

/-- The state right after the constructor: no tabs, empty config store,
no views, `defCurrentViewId = null`. -/
def initState (blankPage blankTitle fileBase : String) (nextId : TabID) : Shell :=
  { blankPage := blankPage, blankTitle := blankTitle, fileBase := fileBase,
    nextId := nextId }

/-- Key synchronization of `tabs` and `tabConfigs`: the same ids populate
the sequence and the store. -/
def KeySynced (st : Shell) : Prop :=
  ∀ id, id ∈ st.tabs ↔ (st.tabConfigs id).isSome = true

/-! ### Concrete fixtures -/

/-- A concrete shell exercising the operations: three tabs `10, 11, 12`
with live (fresh) views, tab `11` active. -/
def demoShell : Shell :=
  { currentViewId := some 11,
    tabConfigs := fun j =>
      if j = 10 ∨ j = 11 ∨ j = 12 then some { title := some "t" } else none,
    views := fun j => if j = 10 ∨ j = 11 ∨ j = 12 then some {} else none,
    tabs := [10, 11, 12],
    nextId := 13,
    blankPage := "",
    blankTitle := "",
    fileBase := "file:///app",
    log := [] }

/-- A shell with a single active tab `7` (with a live view), used for the
single-tab close scenario. -/
def soloShell : Shell :=
  { currentViewId := some 7,
    tabConfigs := fun j => if j = 7 then some { title := some "t" } else none,
    views := fun j => if j = 7 then some {} else none,
    tabs := [7],
    nextId := 8,
    blankPage := "",
    blankTitle := "",
    fileBase := "file:///app",
    log := [] }

/-- A shell whose config store still holds an entry for tab `1`
(with `canGoBack: true`) although no live view exists for it. -/
def staleShell : Shell :=
  { tabConfigs := fun j =>
      if j = 1 then some { title := some "old", canGoBack := some true } else none }

/-! ### Field-preservation lemmas for the primitive operations -/

theorem setCurrentView_tabs (st : Shell) (v : Option TabID) :
    (setCurrentView st v).tabs = st.tabs := by
  cases v with
  | none => rfl
  | some i => by_cases h : i = 0 <;> simp [setCurrentView, h]

theorem setCurrentView_tabConfigs (st : Shell) (v : Option TabID) :
    (setCurrentView st v).tabConfigs = st.tabConfigs := by
  cases v with
  | none => rfl
  | some i => by_cases h : i = 0 <;> simp [setCurrentView, h]

theorem setCurrentView_views (st : Shell) (v : Option TabID) :
    (setCurrentView st v).views = st.views := by
  cases v with
  | none => rfl
  | some i => by_cases h : i = 0 <;> simp [setCurrentView, h]

theorem setCurrentView_nextId (st : Shell) (v : Option TabID) :
    (setCurrentView st v).nextId = st.nextId := by
  cases v with
  | none => rfl
  | some i => by_cases h : i = 0 <;> simp [setCurrentView, h]

theorem setCurrentView_blankPage (st : Shell) (v : Option TabID) :
    (setCurrentView st v).blankPage = st.blankPage := by
  cases v with
  | none => rfl
  | some i => by_cases h : i = 0 <;> simp [setCurrentView, h]

theorem setCurrentView_blankTitle (st : Shell) (v : Option TabID) :
    (setCurrentView st v).blankTitle = st.blankTitle := by
  cases v with
  | none => rfl
  | some i => by_cases h : i = 0 <;> simp [setCurrentView, h]

theorem setCurrentView_some (st : Shell) (i : TabID) (h : ¬ i = 0) :
    setCurrentView st (some i) =
      { st with currentViewId := some i, log := st.log ++ [Evt.activeUpdate i] } := by
  unfold setCurrentView
  simp [h]

theorem assignTabConfigs_tabs (st : Shell) (v : TabID → Option Tab) :
    (assignTabConfigs st v).tabs = st.tabs := rfl

theorem assignTabConfigs_tabConfigs (st : Shell) (v : TabID → Option Tab) :
    (assignTabConfigs st v).tabConfigs = v := rfl

theorem loadURL_tabs (st : Shell) (u : String) : (loadURL st u).tabs = st.tabs := by
  unfold loadURL
  split
  · rfl
  split
  · rfl
  split <;> rfl

theorem loadURL_tabConfigs (st : Shell) (u : String) :
    (loadURL st u).tabConfigs = st.tabConfigs := by
  unfold loadURL
  split
  · rfl
  split
  · rfl
  split <;> rfl

theorem loadURL_currentViewId (st : Shell) (u : String) :
    (loadURL st u).currentViewId = st.currentViewId := by
  unfold loadURL
  split
  · rfl
  split
  · rfl
  split <;> rfl

theorem loadURL_nextId (st : Shell) (u : String) :
    (loadURL st u).nextId = st.nextId := by
  unfold loadURL
  split
  · rfl
  split
  · rfl
  split <;> rfl

theorem destroyView_tabs (st : Shell) (i : TabID) :
    (destroyView st i).tabs = st.tabs := by
  unfold destroyView
  split <;> rfl

theorem destroyView_tabConfigs (st : Shell) (i : TabID) :
    (destroyView st i).tabConfigs = st.tabConfigs := by
  unfold destroyView
  split <;> rfl

theorem destroyView_currentViewId (st : Shell) (i : TabID) :
    (destroyView st i).currentViewId = st.currentViewId := by
  unfold destroyView
  split <;> rfl

theorem destroyView_nextId (st : Shell) (i : TabID) :
    (destroyView st i).nextId = st.nextId := by
  unfold destroyView
  split <;> rfl

theorem destroyView_blankPage (st : Shell) (i : TabID) :
    (destroyView st i).blankPage = st.blankPage := by
  unfold destroyView
  split <;> rfl

theorem destroyView_blankTitle (st : Shell) (i : TabID) :
    (destroyView st i).blankTitle = st.blankTitle := by
  unfold destroyView
  split <;> rfl

theorem destroyView_of_some (st : Shell) (i : TabID) (v : View)
    (h : st.views i = some v) :
    destroyView st i =
      { st with views := upd st.views i none,
                log := st.log ++ [Evt.destroyed i] } := by
  unfold destroyView
  rw [h]

theorem setTabConfig_tabs (st : Shell) (i : TabID) (kv : Tab) :
    (setTabConfig st i kv).tabs = st.tabs := rfl

theorem setTabConfig_currentViewId (st : Shell) (i : TabID) (kv : Tab) :
    (setTabConfig st i kv).currentViewId = st.currentViewId := rfl

theorem setTabConfig_tabConfigs (st : Shell) (i : TabID) (kv : Tab) :
    (setTabConfig st i kv).tabConfigs =
      upd st.tabConfigs i
        (some (mergeTab ((st.tabConfigs i).getD {}) (st.views i) kv)) := rfl

theorem setTabConfig_log (st : Shell) (i : TabID) (kv : Tab) :
    (setTabConfig st i kv).log = st.log ++ [Evt.tabsUpdate st.tabs] := rfl

/-! ### Composite lemmas for `newTab` and the close-tab phases -/

theorem mem_spliceInsert {l : List TabID} {k : Nat} {x j : TabID} :
    j ∈ spliceInsert l k x ↔ j = x ∨ j ∈ l := by
  unfold spliceInsert
  constructor
  · intro h
    rcases List.mem_append.1 h with h | h
    · exact Or.inr (List.take_subset k l h)
    · rcases List.mem_cons.1 h with h | h
      · exact Or.inl h
      · exact Or.inr (List.drop_subset k l h)
  · intro h
    rcases h with h | h
    · exact List.mem_append.2 (Or.inr (List.mem_cons.2 (Or.inl h)))
    · rw [← List.take_append_drop k l] at h
      rcases List.mem_append.1 h with h | h
      · exact List.mem_append.2 (Or.inl h)
      · exact List.mem_append.2 (Or.inr (List.mem_cons.2 (Or.inr h)))

theorem newTab_tabs (st : Shell) (u : Option String) (a : Option TabID) :
    (newTab st u a).tabs =
      (if jsTruthyId a then
        spliceInsert st.tabs (jsIndexOf st.tabs (a.getD 0) + 1).toNat st.nextId
      else st.tabs ++ [st.nextId]) := by
  unfold newTab
  rw [setTabConfig_tabs, loadURL_tabs, setCurrentView_tabs]
  rfl

theorem newTab_tabConfigs_isSome (st : Shell) (u : Option String) (a : Option TabID)
    (j : TabID) :
    ((newTab st u a).tabConfigs j).isSome = true ↔
      (j = st.nextId ∨ (st.tabConfigs j).isSome = true) := by
  unfold newTab
  rw [setTabConfig_tabConfigs, loadURL_tabConfigs, setCurrentView_tabConfigs]
  show (upd (newTabInserted st a).tabConfigs st.nextId _ j).isSome = true ↔ _
  unfold upd newTabInserted
  by_cases hj : j = st.nextId <;> simp [hj]

theorem newTab_nextId (st : Shell) (u : Option String) (a : Option TabID) :
    (newTab st u a).nextId = st.nextId + 1 := by
  unfold newTab
  show (loadURL _ _).nextId = _
  rw [loadURL_nextId, setCurrentView_nextId]
  rfl

theorem newTab_currentViewId (st : Shell) (u : Option String) (a : Option TabID)
    (h : ¬ st.nextId = 0) :
    (newTab st u a).currentViewId = some st.nextId := by
  unfold newTab
  show (loadURL _ _).currentViewId = _
  rw [loadURL_currentViewId, setCurrentView_some _ _ h]

theorem closeTabSwitched_tabs (st : Shell) (id : TabID) :
    (closeTabSwitched st id).tabs = st.tabs := by
  unfold closeTabSwitched
  split
  · exact setCurrentView_tabs st _
  · rfl

theorem closeTabSwitched_tabConfigs (st : Shell) (id : TabID) :
    (closeTabSwitched st id).tabConfigs = st.tabConfigs := by
  unfold closeTabSwitched
  split
  · exact setCurrentView_tabConfigs st _
  · rfl

theorem closeTabSwitched_views (st : Shell) (id : TabID) :
    (closeTabSwitched st id).views = st.views := by
  unfold closeTabSwitched
  split
  · exact setCurrentView_views st _
  · rfl

theorem closeTabSwitched_nextId (st : Shell) (id : TabID) :
    (closeTabSwitched st id).nextId = st.nextId := by
  unfold closeTabSwitched
  split
  · exact setCurrentView_nextId st _
  · rfl

theorem closeTabSwitched_blankPage (st : Shell) (id : TabID) :
    (closeTabSwitched st id).blankPage = st.blankPage := by
  unfold closeTabSwitched
  split
  · exact setCurrentView_blankPage st _
  · rfl

theorem closeTabSwitched_blankTitle (st : Shell) (id : TabID) :
    (closeTabSwitched st id).blankTitle = st.blankTitle := by
  unfold closeTabSwitched
  split
  · exact setCurrentView_blankTitle st _
  · rfl

theorem closeTabBase_tabs (st : Shell) (id : TabID) :
    (closeTabBase st id).tabs = st.tabs.filter (fun v => v != id) := by
  unfold closeTabBase
  rw [destroyView_tabs, assignTabConfigs_tabs]
  show (closeTabSwitched st id).tabs.filter _ = _
  rw [closeTabSwitched_tabs]

theorem closeTabBase_tabConfigs (st : Shell) (id : TabID) :
    (closeTabBase st id).tabConfigs = upd st.tabConfigs id none := by
  unfold closeTabBase
  rw [destroyView_tabConfigs, assignTabConfigs_tabConfigs]
  show upd (closeTabSwitched st id).tabConfigs id none = _
  rw [closeTabSwitched_tabConfigs]

theorem closeTabBase_nextId (st : Shell) (id : TabID) :
    (closeTabBase st id).nextId = st.nextId := by
  unfold closeTabBase
  rw [destroyView_nextId]
  show (closeTabSwitched st id).nextId = _
  rw [closeTabSwitched_nextId]

theorem closeTabBase_currentViewId (st : Shell) (id : TabID) :
    (closeTabBase st id).currentViewId = (closeTabSwitched st id).currentViewId := by
  unfold closeTabBase
  rw [destroyView_currentViewId]
  rfl

theorem closeTabBase_views (st : Shell) (id : TabID) (v : View)
    (hv : st.views id = some v) :
    (closeTabBase st id).views = upd st.views id none := by
  unfold closeTabBase
  have h1 : (assignTabConfigs
      { closeTabSwitched st id with
        tabs := (closeTabSwitched st id).tabs.filter (fun t => t != id) }
      (upd (closeTabSwitched st id).tabConfigs id none)).views = st.views :=
    closeTabSwitched_views st id
  rw [destroyView_of_some _ id v (by rw [h1]; exact hv)]
  show upd _ id none = _
  rw [h1]

/-! ### Claim theorems -/

/-- Claim C3: after any `closeTab` command completes the shell has at least
one tab — the result is either the non-empty filtered sequence or, when the
removal emptied the sequence, the single automatically opened blank tab
(`newTab()` with no url, which loads the configured blank page). -/
theorem closeTab_keeps_a_tab (st : Shell) (id : TabID) :
    (closeTab st id).tabs ≠ [] ∧
    ((closeTab st id).tabs = st.tabs.filter (fun v => v != id) ∨
     (closeTab st id).tabs = [st.nextId]) := by
  unfold closeTab
  by_cases h : (closeTabBase st id).tabs.length = 0
  · rw [if_pos h]
    have hb : (closeTabBase st id).tabs = [] := List.length_eq_zero.mp h
    rw [newTab_tabs, closeTabBase_nextId, hb]
    simp [jsTruthyId]
  · rw [if_neg h]
    refine ⟨?_, Or.inl (closeTabBase_tabs st id)⟩
    intro hnil
    exact h (by rw [hnil]; rfl)

/-- Claim C6 (amended): merging `{title: "X"}` into a tab's entry keeps
`url`, `href`, `favicon` and `isLoading` from the prior entry and sets the
title, but `canGoBack`/`canGoForward` are always overwritten — recomputed
from the live view when a handle exists and reset to `undefined` when no
handle exists (the caller did not supply them, and the prior values are
discarded either way). -/
theorem setTabConfig_title_merge (st : Shell) (id : TabID) (x : String) :
    (setTabConfig st id { title := some x }).tabConfigs id =
      some { url := ((st.tabConfigs id).getD {}).url,
             href := ((st.tabConfigs id).getD {}).href,
             title := some x,
             favicon := ((st.tabConfigs id).getD {}).favicon,
             isLoading := ((st.tabConfigs id).getD {}).isLoading,
             canGoBack := (st.views id).map View.canGoBack,
             canGoForward := (st.views id).map View.canGoForward } := by
  rw [setTabConfig_tabConfigs]
  unfold upd
  simp [mergeTab]

/-- Claim C6 counterexample: on `staleShell` (entry for tab 1 has
`canGoBack: true` but no live view), merging `{title:"X"}` does not leave
the `canGoBack` field untouched — it is reset to `undefined`. -/
theorem setTabConfig_drops_canGoBack :
    ((setTabConfig staleShell 1 { title := some "X" }).tabConfigs 1).map Tab.canGoBack ≠
      (staleShell.tabConfigs 1).map Tab.canGoBack := by
  decide

/-- Claim C7 (amended): a `will-redirect` event merges the raw redirect
target into `{url, href}` — without the virtual-scheme rewrite and without
a main-frame test — and emits a `url-updated` notification after the store
notification. -/
theorem willRedirect_raw_update (st : Shell) (id : TabID) (href : String) :
    ((willRedirect st id href).tabConfigs id).map (fun t => (t.url, t.href)) =
      some (some href, some href) ∧
    (willRedirect st id href).log =
      st.log ++ [Evt.tabsUpdate st.tabs, Evt.urlUpdated href] ∧
    (willRedirect st id href).tabs = st.tabs := by
  refine ⟨?_, ?_, ?_⟩
  · show ((setTabConfig st id { url := some href, href := some href }).tabConfigs id).map
        (fun t => (t.url, t.href)) = _
    rw [setTabConfig_tabConfigs]
    unfold upd
    simp [mergeTab]
  · show (setTabConfig st id { url := some href, href := some href }).log ++ _ = _
    rw [setTabConfig_log, List.append_assoc]
    rfl
  · exact setTabConfig_tabs st id { url := some href, href := some href }

/-- Claim C7 counterexample: a redirect whose target is the settings page's
physical location is recorded raw by the `will-redirect` handler, while the
`did-start-navigation` handler records the virtual address for the same
target — so a redirect is not handled "exactly as a main-frame
navigation-committed event". -/
theorem willRedirect_not_rewritten :
    ((willRedirect demoShell 11 (pagePath "file:///app" "settings.html")).tabConfigs 11).map
        Tab.url ≠
      ((didStartNavigation demoShell 11 (pagePath "file:///app" "settings.html")
          false true).tabConfigs 11).map Tab.url := by
  decide

/-- Claim C9: `act('reload')` is a no-op (nothing is forwarded to the
handle, so no load can start) when the active view's loaded location is the
empty string, and forwards `reload` to the active handle otherwise. -/
theorem act_reload_guard (st : Shell) (id : TabID) (v : View)
    (hc : currentView st = some (id, v)) :
    webContentsAct st "reload" = (if v.url = "" then none else some (id, "reload")) := by
  unfold webContentsAct
  rw [hc]
  by_cases hu : v.url = "" <;> simp [wcNavigationMethods, hu]

/-- Claim C9 witness: on `demoShell` the active view (tab 11) has loaded
location `""`, and `act('reload')` forwards nothing. -/
theorem act_reload_guard_witness : webContentsAct demoShell "reload" = none := by
  have h := act_reload_guard demoShell 11 {} (by decide)
  simpa using h

/-- Claim C4 counterexample: on `demoShell` (tabs `[10,11,12]`, next fresh
id 13), `newTab` with the absent anchor `99` does not append at the end
(`[10,11,12,13]`); the splice lands at position 0. -/
theorem newTab_absent_anchor_not_appended :
    (newTab demoShell (some "http://d/") (some 99)).tabs ≠ [10, 11, 12, 13] := by
  decide

/-- Claim C4 (amended): `newTab` with a present anchor inserts the fresh id
immediately after the anchor's first occurrence; with no anchor it appends
at the end; but with a supplied anchor that is absent from the sequence it
inserts at the beginning (JS `indexOf` yields `-1`, so the splice position
is `0`), not at the end. -/
theorem newTab_insert_position (st : Shell) (url : Option String) (a : TabID)
    (ha : ¬ a = 0) :
    ((newTab st url (some a)).tabs =
      if a ∈ st.tabs then
        st.tabs.take (st.tabs.indexOf a + 1) ++
          st.nextId :: st.tabs.drop (st.tabs.indexOf a + 1)
      else st.nextId :: st.tabs) ∧
    (newTab st url none).tabs = st.tabs ++ [st.nextId] := by
  constructor
  · rw [newTab_tabs]
    have ht : jsTruthyId (some a) = true := by simp [jsTruthyId, ha]
    rw [if_pos ht]
    by_cases hm : a ∈ st.tabs
    · rw [if_pos hm]
      show spliceInsert st.tabs (jsIndexOf st.tabs a + 1).toNat st.nextId = _
      unfold jsIndexOf
      rw [if_pos hm]
      have hc : ((st.tabs.indexOf a : Int) + 1).toNat = st.tabs.indexOf a + 1 := by omega
      rw [hc]
      rfl
    · rw [if_neg hm]
      show spliceInsert st.tabs (jsIndexOf st.tabs a + 1).toNat st.nextId = _
      unfold jsIndexOf
      rw [if_neg hm]
      show spliceInsert st.tabs ((-1 : Int) + 1).toNat st.nextId = _
      norm_num
      rfl
  · rw [newTab_tabs]
    rfl

/-- Claim C4 witness: on `demoShell`, anchoring at the present tab `10`
inserts 13 right after it, and no anchor appends 13 at the end. -/
theorem newTab_insert_position_witness :
    (newTab demoShell (some "http://d/") (some 10)).tabs = [10, 13, 11, 12] ∧
    (newTab demoShell (some "http://d/") none).tabs = [10, 11, 12, 13] := by
  have h := newTab_insert_position demoShell (some "http://d/") 10 (by decide)
  exact ⟨h.1.trans (by decide), h.2.trans (by decide)⟩

/-- Claim C8: closing a non-active tab never changes ActiveTabID — only the
closed tab's sequence membership, its config entry and its view change. -/
theorem close_nonactive_preserves_active (st : Shell) (id a : TabID) (v : View)
    (hcur : st.currentViewId = some a) (hne : ¬ a = id) (hmem : a ∈ st.tabs)
    (hv : st.views id = some v) :
    (closeTab st id).currentViewId = some a ∧
    (closeTab st id).tabs = st.tabs.filter (fun t => t != id) ∧
    (closeTab st id).tabConfigs = upd st.tabConfigs id none ∧
    (closeTab st id).views = upd st.views id none := by
  have hsw : closeTabSwitched st id = st := by
    unfold closeTabSwitched
    rw [if_neg]
    intro h
    rw [hcur] at h
    exact hne (Option.some.inj h)
  have hmemf : a ∈ (closeTabBase st id).tabs := by
    rw [closeTabBase_tabs]
    exact List.mem_filter.2 ⟨hmem, by simp [hne]⟩
  have hlen : ¬ (closeTabBase st id).tabs.length = 0 := by
    intro hzero
    rw [List.length_eq_zero] at hzero
    rw [hzero] at hmemf
    exact (List.not_mem_nil a) hmemf
  unfold closeTab
  rw [if_neg hlen]
  refine ⟨?_, closeTabBase_tabs st id, closeTabBase_tabConfigs st id,
    closeTabBase_views st id v hv⟩
  rw [closeTabBase_currentViewId, hsw, hcur]

/-- Claim C8 witness: closing the non-active tab 10 of `demoShell` leaves
tab 11 active and only removes tab 10's entries. -/
theorem close_nonactive_preserves_active_witness :
    (closeTab demoShell 10).currentViewId = some 11 ∧
    (closeTab demoShell 10).tabs = demoShell.tabs.filter (fun t => t != 10) ∧
    (closeTab demoShell 10).tabConfigs = upd demoShell.tabConfigs 10 none ∧
    (closeTab demoShell 10).views = upd demoShell.views 10 none :=
  close_nonactive_preserves_active demoShell 10 11 {} (by decide) (by decide)
    (by decide) (by decide)

/-- Claim C1: closing the active tab (the sequence holding at least two
distinct, non-zero tabs) activates the tab immediately following it in
TabSequence — wrapping to the first tab when it was last — and does so
before the removal is pushed to the store (the `active-update` notification
precedes the `tabs-update` notification carrying the shortened sequence)
and before the closed view is destroyed; the sequence ends up with the
closed id filtered out. -/
theorem close_active_switches_to_successor (st : Shell) (id : TabID) (v : View)
    (hcur : st.currentViewId = some id)
    (hmem : id ∈ st.tabs)
    (hnd : st.tabs.Nodup)
    (hlen : 2 ≤ st.tabs.length)
    (h0 : ¬ (0 : TabID) ∈ st.tabs)
    (hv : st.views id = some v) :
    (closeTab st id).currentViewId =
      some (st.tabs.getD
        (if st.tabs.indexOf id + 1 = st.tabs.length then 0
         else st.tabs.indexOf id + 1) 0) ∧
    (closeTab st id).tabs = st.tabs.filter (fun t => t != id) ∧
    (closeTab st id).log = st.log ++
      [Evt.activeUpdate
        (st.tabs.getD
          (if st.tabs.indexOf id + 1 = st.tabs.length then 0
           else st.tabs.indexOf id + 1) 0),
       Evt.tabsUpdate (st.tabs.filter (fun t => t != id)),
       Evt.destroyed id] := by
  set i := st.tabs.indexOf id with hidef
  have hi : i < st.tabs.length := List.indexOf_lt_length.2 hmem
  set idx := if i + 1 = st.tabs.length then 0 else i + 1 with hidxdef
  have hidx : idx < st.tabs.length := by
    rw [hidxdef]
    split <;> omega
  set e := st.tabs.getD idx 0 with hedef
  have hee : e = st.tabs.get ⟨idx, hidx⟩ := by
    rw [hedef, List.getD_eq_getElem st.tabs 0 hidx, List.get_eq_getElem]
  have hemem : e ∈ st.tabs := by
    rw [hee]
    exact List.get_mem st.tabs idx hidx
  have he0 : ¬ e = 0 := fun h => h0 (h ▸ hemem)
  have hgid : st.tabs.get ⟨i, hi⟩ = id := List.indexOf_get hi
  have hne_idx : ¬ idx = i := by
    rw [hidxdef]
    split <;> omega
  have hne : ¬ e = id := by
    intro h
    have hgg : st.tabs.get ⟨idx, hidx⟩ = st.tabs.get ⟨i, hi⟩ := by
      rw [← hee, h, hgid]
    exact hne_idx (congrArg Fin.val ((hnd.get_inj_iff).1 hgg))
  have hget2 : st.tabs.get? idx = some e := by
    rw [List.get?_eq_getElem?, List.getElem?_eq_getElem hidx, hee, List.get_eq_getElem]
  have hswitch : closeTabSwitched st id =
      { st with currentViewId := some e, log := st.log ++ [Evt.activeUpdate e] } := by
    unfold closeTabSwitched
    rw [if_pos hcur]
    have hjs : jsIndexOf st.tabs id = (i : Int) := by
      unfold jsIndexOf
      rw [if_pos hmem, hidef]
    have hni : (closeNextIndex st.tabs id).toNat = idx := by
      unfold closeNextIndex
      rw [hjs, hidxdef]
      by_cases hc : i + 1 = st.tabs.length
      · rw [if_pos (by omega : (i : Int) = (st.tabs.length : Int) - 1), if_pos hc]
        rfl
      · rw [if_neg (by omega : ¬ (i : Int) = (st.tabs.length : Int) - 1), if_neg hc]
        omega
    rw [hni, hget2, setCurrentView_some st e he0]
  have hbase : closeTabBase st id =
      { st with currentViewId := some e,
                tabs := st.tabs.filter (fun t => t != id),
                tabConfigs := upd st.tabConfigs id none,
                views := upd st.views id none,
                log := st.log ++
                  [Evt.activeUpdate e,
                   Evt.tabsUpdate (st.tabs.filter (fun t => t != id)),
                   Evt.destroyed id] } := by
    unfold closeTabBase destroyView
    rw [hswitch]
    simp [assignTabConfigs, hv, List.append_assoc]
  have hmemf : e ∈ (closeTabBase st id).tabs := by
    rw [hbase]
    exact List.mem_filter.2 ⟨hemem, by simp [hne]⟩
  have hflen : ¬ (closeTabBase st id).tabs.length = 0 := by
    intro hzero
    rw [List.length_eq_zero] at hzero
    rw [hzero] at hmemf
    exact (List.not_mem_nil e) hmemf
  unfold closeTab
  rw [if_neg hflen, hbase]
  exact ⟨rfl, rfl, rfl⟩

/-- Claim C1 witness: on `demoShell` (tabs `[10,11,12]`, active 11),
closing 11 activates 12 first and leaves the sequence `[10,12]`. -/
theorem close_active_switches_to_successor_witness :
    (closeTab demoShell 11).currentViewId =
      some (demoShell.tabs.getD
        (if demoShell.tabs.indexOf 11 + 1 = demoShell.tabs.length then 0
         else demoShell.tabs.indexOf 11 + 1) 0) ∧
    (closeTab demoShell 11).tabs = demoShell.tabs.filter (fun t => t != 11) ∧
    (closeTab demoShell 11).log = demoShell.log ++
      [Evt.activeUpdate
        (demoShell.tabs.getD
          (if demoShell.tabs.indexOf 11 + 1 = demoShell.tabs.length then 0
           else demoShell.tabs.indexOf 11 + 1) 0),
       Evt.tabsUpdate (demoShell.tabs.filter (fun t => t != 11)),
       Evt.destroyed 11] :=
  close_active_switches_to_successor demoShell 11 {} (by decide) (by decide)
    (by decide) (by decide) (by decide) (by decide)

/-- Claim C10: closing the active tab when it is the only tab resolves the
wrap-to-first replacement to the closed tab itself: an `active-update` is
emitted for the closed id (re-activating it), the tab is then removed and
its view destroyed while it is still the active id, and only afterwards
does the automatic `newTab` activate the fresh blank tab (which then loads
the blank page, when one is configured, and is pushed to the store). -/
theorem close_last_tab_reactivates_closed (st : Shell) (id : TabID) (v : View)
    (hcur : st.currentViewId = some id)
    (htabs : st.tabs = [id])
    (h0 : ¬ id = 0)
    (hv : st.views id = some v)
    (hn0 : ¬ st.nextId = 0)
    (hnne : ¬ st.nextId = id) :
    (closeTab st id).currentViewId = some st.nextId ∧
    (closeTab st id).tabs = [st.nextId] ∧
    (closeTab st id).views id = none ∧
    (closeTab st id).log = st.log ++
      [Evt.activeUpdate id, Evt.tabsUpdate [], Evt.destroyed id,
       Evt.activeUpdate st.nextId] ++
      (if st.blankPage = "" then [] else [Evt.load st.nextId st.blankPage]) ++
      [Evt.tabsUpdate [st.nextId]] := by
  have hswitch : closeTabSwitched st id =
      { st with currentViewId := some id, log := st.log ++ [Evt.activeUpdate id] } := by
    unfold closeTabSwitched
    rw [if_pos hcur]
    have hni : (closeNextIndex st.tabs id).toNat = 0 := by
      unfold closeNextIndex jsIndexOf
      rw [htabs]
      simp
    rw [hni, htabs]
    show setCurrentView st (some id) = _
    rw [setCurrentView_some st id h0, htabs]
  have hbase : closeTabBase st id =
      { st with currentViewId := some id,
                tabs := [],
                tabConfigs := upd st.tabConfigs id none,
                views := upd st.views id none,
                log := st.log ++
                  [Evt.activeUpdate id, Evt.tabsUpdate [], Evt.destroyed id] } := by
    unfold closeTabBase destroyView
    rw [hswitch]
    simp [assignTabConfigs, hv, htabs, List.append_assoc]
  have hnne' : ¬ id = st.nextId := fun h => hnne h.symm
  unfold closeTab
  rw [hbase]
  by_cases hbp : st.blankPage = "" <;>
    simp [newTab, newTabInserted, setCurrentView, loadURL, setTabConfig,
          assignTabConfigs, currentView, jsOr, jsTruthyId, upd, mergeTab,
          hn0, hbp, hnne', List.append_assoc]

/-- Claim C10 witness: a shell whose only tab 7 is active: closing it
emits `active-update 7` (re-activation), removes and destroys 7, then
activates the automatically opened tab 8. -/
theorem close_last_tab_reactivates_closed_witness :
    (closeTab soloShell 7).currentViewId = some soloShell.nextId ∧
    (closeTab soloShell 7).tabs = [soloShell.nextId] ∧
    (closeTab soloShell 7).views 7 = none ∧
    (closeTab soloShell 7).log = soloShell.log ++
      [Evt.activeUpdate 7, Evt.tabsUpdate [], Evt.destroyed 7,
       Evt.activeUpdate soloShell.nextId] ++
      (if soloShell.blankPage = "" then [] else [Evt.load soloShell.nextId soloShell.blankPage]) ++
      [Evt.tabsUpdate [soloShell.nextId]] :=
  close_last_tab_reactivates_closed soloShell 7 {} (by decide) (by decide)
    (by decide) (by decide) (by decide) (by decide)

theorem keySynced_newTab (st : Shell) (u : Option String) (a : Option TabID)
    (h : KeySynced st) : KeySynced (newTab st u a) := by
  intro j
  rw [newTab_tabs, newTab_tabConfigs_isSome]
  by_cases ht : jsTruthyId a <;>
    simp [ht, mem_spliceInsert, List.mem_append, h j, or_comm]

theorem keySynced_closeTabBase (st : Shell) (id : TabID) (h : KeySynced st) :
    KeySynced (closeTabBase st id) := by
  intro j
  rw [closeTabBase_tabs, closeTabBase_tabConfigs]
  unfold upd
  by_cases hj : j = id
  · subst hj
    simp [List.mem_filter]
  · simp [List.mem_filter, hj, h j]

theorem keySynced_closeTab (st : Shell) (id : TabID) (h : KeySynced st) :
    KeySynced (closeTab st id) := by
  unfold closeTab
  split
  · exact keySynced_newTab _ none none (keySynced_closeTabBase st id h)
  · exact keySynced_closeTabBase st id h

theorem keySynced_switchTab (st : Shell) (i : TabID) (h : KeySynced st) :
    KeySynced (switchTab st i) := by
  intro j
  unfold switchTab
  rw [setCurrentView_tabs, setCurrentView_tabConfigs]
  exact h j

theorem keySynced_step (st : Shell) (c : Cmd) (h : KeySynced st) :
    KeySynced (step st c) := by
  cases c with
  | openTab u a => exact keySynced_newTab st u a h
  | closeTab id => exact keySynced_closeTab st id h
  | switchTab id => exact keySynced_switchTab st id h

theorem keySynced_run (st : Shell) (cmds : List Cmd) (h : KeySynced st) :
    KeySynced (run st cmds) := by
  induction cmds generalizing st with
  | nil => exact h
  | cons c cs ih => exact ih (step st c) (keySynced_step st c h)

/-- Claim C2: for every sequence of `openTab`/`closeTab`/`switchTab`
commands starting from the initial state, after each command completes
(each prefix is itself a quantified command list) the set of TabIDs in
TabSequence equals the set of TabIDs with an entry in TabConfigStore. -/
theorem tabSequence_tabConfigStore_in_lockstep (bp bt fb : String) (n0 : TabID)
    (cmds : List Cmd) :
    KeySynced (run (initState bp bt fb n0) cmds) := by
  apply keySynced_run
  intro j
  simp [initState, KeySynced]

theorem length_le_of_isPrefixOf {n h : List Char} (hp : n.isPrefixOf h = true) :
    n.length ≤ h.length :=
  (List.isPrefixOf_iff_prefix.mp hp).length_le

theorem length_le_of_isSegmentOf {n h : List Char} (hs : isSegmentOf n h = true) :
    n.length ≤ h.length := by
  induction h with
  | nil =>
    unfold isSegmentOf at hs
    rw [List.isEmpty_iff] at hs
    simp [hs]
  | cons c t ih =>
    unfold isSegmentOf at hs
    rw [Bool.or_eq_true] at hs
    rcases hs with hp | hseg
    · exact length_le_of_isPrefixOf hp
    · exact Nat.le_succ_of_le (ih hseg)

/-- A string strictly shorter than `w` cannot contain `w` as a substring. -/
theorem includes_false_of_needle_long (v w : String)
    (h : v.data.length < w.data.length) : includes v w = false := by
  unfold includes
  by_contra hc
  rw [Bool.not_eq_false] at hc
  have hle := length_le_of_isSegmentOf hc
  omega

/-- A string strictly shorter than the fixed `/main/renderer/` separator
plus the page name never contains a built-in page's physical location,
whatever the base is. -/
theorem includes_pagePath_false (v base name : String)
    (h : v.data.length < 15 + name.data.length) :
    includes v (pagePath base name) = false := by
  apply includes_false_of_needle_long
  have hd : (pagePath base name).data =
      base.data ++ "/main/renderer/".data ++ name.data := rfl
  rw [hd, List.length_append, List.length_append]
  have h15 : "/main/renderer/".data.length = 15 := by decide
  omega

theorem rewriteHref_eq (base blank href : String) (k : Nat) (hk5 : k < 5)
    (hk : includes href (pagePath base (builtinFile k)) = true)
    (hearlier : ∀ j, j < k → includes href (pagePath base (builtinFile j)) = false)
    (hblank : ¬ href = blank) :
    rewriteHref base blank href = builtinVirtual k := by
  interval_cases k
  · simp only [builtinFile] at hk
    have na : includes "px://settings" (pagePath base "about.html") = false :=
      includes_pagePath_false _ _ _ (by decide)
    have nh : includes "px://settings" (pagePath base "help.html") = false :=
      includes_pagePath_false _ _ _ (by decide)
    have nw : includes "px://settings" (pagePath base "web_fail_code.html") = false :=
      includes_pagePath_false _ _ _ (by decide)
    have nc : includes "px://settings" (pagePath base "credits.html") = false :=
      includes_pagePath_false _ _ _ (by decide)
    simp [rewriteHref, builtinVirtual, hblank, hk, na, nh, nw, nc]
  · have e0 := hearlier 0 (by omega)
    simp only [builtinFile] at hk e0
    have nh : includes "px://about" (pagePath base "help.html") = false :=
      includes_pagePath_false _ _ _ (by decide)
    have nw : includes "px://about" (pagePath base "web_fail_code.html") = false :=
      includes_pagePath_false _ _ _ (by decide)
    have nc : includes "px://about" (pagePath base "credits.html") = false :=
      includes_pagePath_false _ _ _ (by decide)
    simp [rewriteHref, builtinVirtual, hblank, hk, e0, nh, nw, nc]
  · have e0 := hearlier 0 (by omega)
    have e1 := hearlier 1 (by omega)
    simp only [builtinFile] at hk e0 e1
    have nw : includes "px://help" (pagePath base "web_fail_code.html") = false :=
      includes_pagePath_false _ _ _ (by decide)
    have nc : includes "px://help" (pagePath base "credits.html") = false :=
      includes_pagePath_false _ _ _ (by decide)
    simp [rewriteHref, builtinVirtual, hblank, hk, e0, e1, nw, nc]
  · have e0 := hearlier 0 (by omega)
    have e1 := hearlier 1 (by omega)
    have e2 := hearlier 2 (by omega)
    simp only [builtinFile] at hk e0 e1 e2
    have nc : includes "px://network-error" (pagePath base "credits.html") = false :=
      includes_pagePath_false _ _ _ (by decide)
    simp [rewriteHref, builtinVirtual, hblank, hk, e0, e1, e2, nc]
  · have e0 := hearlier 0 (by omega)
    have e1 := hearlier 1 (by omega)
    have e2 := hearlier 2 (by omega)
    have e3 := hearlier 3 (by omega)
    simp only [builtinFile] at hk e0 e1 e2 e3
    simp [rewriteHref, builtinVirtual, hblank, hk, e0, e1, e2, e3]

/-- Claim C5: a main-frame committed navigation whose physical target is
one of the built-in pages (matched, as the source does, by substring of the
physically loaded location against each page in test order) records the
page's virtual-scheme address — never the physical resource path — in both
the `url` and `href` of the tab's entry, and reports it through the store
notification plus the `url-updated` notification. -/
theorem builtin_navigation_presents_virtual (st : Shell) (id : TabID)
    (href : String) (ip : Bool) (k : Nat) (hk5 : k < 5)
    (hk : includes href (pagePath st.fileBase (builtinFile k)) = true)
    (hearlier : ∀ j, j < k →
      includes href (pagePath st.fileBase (builtinFile j)) = false)
    (hblank : ¬ href = st.blankPage) :
    ((didStartNavigation st id href ip true).tabConfigs id).map
        (fun t => (t.url, t.href)) =
      some (some (builtinVirtual k), some (builtinVirtual k)) ∧
    (didStartNavigation st id href ip true).log =
      st.log ++ [Evt.tabsUpdate st.tabs, Evt.urlUpdated (builtinVirtual k)] := by
  have hrw := rewriteHref_eq st.fileBase st.blankPage href k hk5 hk hearlier hblank
  refine ⟨?_, ?_⟩ <;>
    simp [didStartNavigation, hrw, setTabConfig, assignTabConfigs, upd, mergeTab,
      List.append_assoc]

/-- Claim C5 witness: navigating tab 11 of `demoShell` to the physical
about page records `px://about` in both fields and notifies with it. -/
theorem builtin_navigation_presents_virtual_witness :
    ((didStartNavigation demoShell 11 "file:///app/main/renderer/about.html"
        false true).tabConfigs 11).map (fun t => (t.url, t.href)) =
      some (some (builtinVirtual 1), some (builtinVirtual 1)) ∧
    (didStartNavigation demoShell 11 "file:///app/main/renderer/about.html"
        false true).log =
      demoShell.log ++
        [Evt.tabsUpdate demoShell.tabs, Evt.urlUpdated (builtinVirtual 1)] :=
  builtin_navigation_presents_virtual demoShell 11
    "file:///app/main/renderer/about.html" false 1 (by omega) (by decide)
    (by
      intro j hj
      have hj0 : j = 0 := by omega
      subst hj0
      decide)
    (by decide)

end XBrowse
